import Mathlib

/-!
Verification of the NOVYRA trust-and-abuse detection core.

The definitions below are a shallow embedding, in Lean, of the Python
modules `trust_scorer.py`, `vote_analyzer.py`, `similarity_detector.py`
and `ip_clustering.py`.  Python floats are modelled as rationals (reals
for the square-root based cosine similarity); database query results are
modelled as explicit list arguments; Python string tags are kept as
`String` values.
-/

/-! ## Trust scorer (`trust_scorer.py`) -/

/-- The nine trust-score components (dataclass `TrustComponents`). -/
structure TrustComponents where
  mastery_reliability : ℚ
  nli_track_record : ℚ
  community_validation : ℚ
  account_age_trust : ℚ
  interaction_entropy : ℚ
  vote_pattern_score : ℚ
  similarity_flags : ℚ
  abuse_flags : ℚ
  ip_clustering_risk : ℚ
deriving DecidableEq

/-- Result of a trust computation (dataclass `TrustResult`). -/
structure TrustResult where
  score : ℚ
  components : TrustComponents
  tier : String
deriving DecidableEq

/-- The weight dictionary `COMPONENT_WEIGHTS`. -/
def COMPONENT_WEIGHTS : List (String × ℚ) :=
  [("mastery_reliability", 20/100),
   ("nli_track_record", 20/100),
   ("community_validation", 15/100),
   ("account_age_trust", 10/100),
   ("interaction_entropy", 10/100),
   ("vote_pattern_score", 10/100),
   ("similarity_flags", 5/100),
   ("abuse_flags", 5/100),
   ("ip_clustering_risk", 5/100)]

/-- Dictionary access `COMPONENT_WEIGHTS[key]`. -/
def weight_of (key : String) : ℚ := (COMPONENT_WEIGHTS.lookup key).getD 0

/-- Python's `max(0.0, min(1.0, x))`. -/
def clamp01 (x : ℚ) : ℚ := max 0 (min 1 x)

/-- `calculate_mastery_reliability`: argument is the list of
`masteryScore` fields of the user's mastery records. -/
def calculate_mastery_reliability (scores : List ℚ) : ℚ :=
  if scores.length < 5 then 1/2
  else
    let avg_mastery := scores.sum / scores.length
    let variance := ((scores.map (fun s => (s - avg_mastery) * (s - avg_mastery))).sum) / scores.length
    let consistency := max 0 (1 - variance)
    clamp01 (avg_mastery * (7/10) + consistency * (3/10))

/-- `calculate_nli_track_record`: argument is the list of verdicts of the
(at most 100 most recent) fact-check log rows returned by the store. -/
def calculate_nli_track_record (verdicts : List String) : ℚ :=
  if verdicts = [] then 1/2
  else ((verdicts.filter (fun v => v = "PASS")).length : ℚ) / (verdicts.length : ℚ)

/-- `calculate_community_validation`: each answer is modelled as its pair
(number of upvotes, number of downvotes). -/
def calculate_community_validation (answers : List (ℕ × ℕ)) : ℚ :=
  if answers = [] then 1/2
  else
    let total_upvotes : ℕ := (answers.map Prod.fst).sum
    let total_downvotes : ℕ := (answers.map Prod.snd).sum
    if total_upvotes + total_downvotes = 0 then 1/2
    else clamp01 ((total_upvotes : ℚ) / ((total_upvotes : ℚ) + (total_downvotes : ℚ)))

/-- `calculate_account_age_trust`: argument is the account age in whole
days (`(datetime.now() - created_at).days`, creation in the past). -/
def calculate_account_age_trust (age_days : ℕ) : ℚ :=
  clamp01 (1 - 1 / (1 + (age_days : ℚ) / 30))

/-- `calculate_interaction_entropy`: argument is the number of distinct
interaction partners returned by the store query. -/
def calculate_interaction_entropy (unique_users : ℕ) : ℚ :=
  if unique_users < 2 then 2/10
  else if unique_users < 5 then 1/2
  else if unique_users < 10 then 7/10
  else 1

/-- Index-weighted sum `k*c₀ + (k+1)*c₁ + ...`, i.e. the quantity
`sum((i + 1) * count for i, count in enumerate(counts))` when started at
`k = 1`. -/
def wsum (k : ℚ) : List ℚ → ℚ
  | [] => 0
  | c :: cs => k * c + wsum (k + 1) cs

/-- The Gini expression computed in `calculate_vote_pattern_score`:
`(2 * sum((i+1)*count)) / (n * sum(counts)) - (n+1)/n` over the
ascending-sorted count list. -/
def gini_coefficient (sorted : List ℚ) : ℚ :=
  let n : ℚ := (sorted.length : ℚ)
  (2 * wsum 1 sorted) / (n * sorted.sum) - (n + 1) / n

/-- `calculate_vote_pattern_score`: argument is the list of vote target
ids (`vote.answerId` for each of the user's upvotes and downvotes). -/
def calculate_vote_pattern_score (targets : List ℕ) : ℚ :=
  if targets.length < 5 then 1
  else
    let counts : List ℚ := targets.dedup.map (fun t => ((targets.count t : ℕ) : ℚ))
    1 - gini_coefficient (counts.insertionSort (· ≤ ·))

/-- `calculate_similarity_penalty` (stubbed to `1.0` in the source). -/
def calculate_similarity_penalty : ℚ := 1

/-- `calculate_abuse_penalty`: each flag is modelled by its `resolved`
boolean (the caller already queried flags with `resolved = False`). -/
def calculate_abuse_penalty (flags_resolved : List Bool) : ℚ :=
  let active_flags := flags_resolved.filter (fun r => !r)
  if active_flags = [] then 1
  else max 0 (1 - (2/10) * (active_flags.length : ℚ))

/-- `calculate_ip_clustering_risk` (stubbed to `1.0` in the source). -/
def calculate_ip_clustering_risk : ℚ := 1

/-- `get_trust_tier`. -/
def get_trust_tier (score : ℚ) : String :=
  if score < 30/100 then "Restricted"
  else if score < 50/100 then "Novice"
  else if score < 70/100 then "Contributor"
  else if score < 85/100 then "Expert"
  else "Trusted"

/-- The data the store hands to `calculate_trust_score` for an existing
user: mastery scores, fact-check verdicts, per-answer vote counts,
account age in days, distinct interaction partners, vote target ids and
the `resolved` bits of the unresolved-abuse-flag query. -/
structure UserData where
  masteryScores : List ℚ
  factCheckVerdicts : List String
  answers : List (ℕ × ℕ)
  ageDays : ℕ
  uniqueInteractionUsers : ℕ
  voteTargets : List ℕ
  abuseFlagResolved : List Bool

/-- `calculate_trust_score`: `none` is the `if not user` branch (user id
not found); `some u` carries the store data for an existing user. -/
def calculate_trust_score (user : Option UserData) : TrustResult :=
  match user with
  | none =>
      { score := 1/2
        components :=
          { mastery_reliability := 1/2
            nli_track_record := 1/2
            community_validation := 1/2
            account_age_trust := 0
            interaction_entropy := 1/2
            vote_pattern_score := 1/2
            similarity_flags := 1
            abuse_flags := 1
            ip_clustering_risk := 1 }
        tier := "Novice" }
  | some u =>
      let components : TrustComponents :=
        { mastery_reliability := calculate_mastery_reliability u.masteryScores
          nli_track_record := calculate_nli_track_record u.factCheckVerdicts
          community_validation := calculate_community_validation u.answers
          account_age_trust := calculate_account_age_trust u.ageDays
          interaction_entropy := calculate_interaction_entropy u.uniqueInteractionUsers
          vote_pattern_score := calculate_vote_pattern_score u.voteTargets
          similarity_flags := calculate_similarity_penalty
          abuse_flags := calculate_abuse_penalty u.abuseFlagResolved
          ip_clustering_risk := calculate_ip_clustering_risk }
      let final_score :=
        components.mastery_reliability * weight_of ("mastery_reliability") +
        components.nli_track_record * weight_of ("nli_track_record") +
        components.community_validation * weight_of ("community_validation") +
        components.account_age_trust * weight_of ("account_age_trust") +
        components.interaction_entropy * weight_of ("interaction_entropy") +
        components.vote_pattern_score * weight_of ("vote_pattern_score") +
        components.similarity_flags * weight_of ("similarity_flags") +
        components.abuse_flags * weight_of ("abuse_flags") +
        components.ip_clustering_risk * weight_of ("ip_clustering_risk")
      { score := final_score, components := components, tier := get_trust_tier final_score }

/-- The weighted blend of a component vector under `COMPONENT_WEIGHTS`
(the sum the source computes as `final_score`). -/
def component_blend (c : TrustComponents) : ℚ :=
  c.mastery_reliability * weight_of ("mastery_reliability") +
  c.nli_track_record * weight_of ("nli_track_record") +
  c.community_validation * weight_of ("community_validation") +
  c.account_age_trust * weight_of ("account_age_trust") +
  c.interaction_entropy * weight_of ("interaction_entropy") +
  c.vote_pattern_score * weight_of ("vote_pattern_score") +
  c.similarity_flags * weight_of ("similarity_flags") +
  c.abuse_flags * weight_of ("abuse_flags") +
  c.ip_clustering_risk * weight_of ("ip_clustering_risk")

/-- The spec's documented per-component defaults for a user with no
prior history, written from the spec's words for comparison with the
code — 0.5 for mastery, fact-check and community components, 0
account-age trust at creation, 0.2 interaction entropy (fewer than 2
partners), 1.0 vote-pattern score (fewer than 5 votes) and 1.0 for the
three penalty components. -/
def spec_default_components : TrustComponents :=
  { mastery_reliability := 1/2
    nli_track_record := 1/2
    community_validation := 1/2
    account_age_trust := 0
    interaction_entropy := 2/10
    vote_pattern_score := 1
    similarity_flags := 1
    abuse_flags := 1
    ip_clustering_risk := 1 }

/-- An existing user with zero history: no records of any kind, account
created today. -/
def empty_user : UserData :=
  { masteryScores := []
    factCheckVerdicts := []
    answers := []
    ageDays := 0
    uniqueInteractionUsers := 0
    voteTargets := []
    abuseFlagResolved := [] }

example : (calculate_trust_score none).score = 1/2 := by
  norm_num [calculate_trust_score]

example : component_blend (calculate_trust_score none).components = 21/40 := by
  simp [calculate_trust_score, component_blend, weight_of, COMPONENT_WEIGHTS, List.lookup]
  norm_num

example : (calculate_trust_score (some empty_user)).score = 109/200 := by
  simp [calculate_trust_score, empty_user, weight_of, COMPONENT_WEIGHTS, List.lookup,
    calculate_mastery_reliability, calculate_nli_track_record, calculate_community_validation,
    calculate_account_age_trust, calculate_interaction_entropy, calculate_vote_pattern_score,
    calculate_similarity_penalty, calculate_abuse_penalty, calculate_ip_clustering_risk,
    clamp01]
  norm_num

example : (calculate_trust_score (some empty_user)).tier = "Contributor" := by
  simp [calculate_trust_score, empty_user, weight_of, COMPONENT_WEIGHTS, List.lookup,
    calculate_mastery_reliability, calculate_nli_track_record, calculate_community_validation,
    calculate_account_age_trust, calculate_interaction_entropy, calculate_vote_pattern_score,
    calculate_similarity_penalty, calculate_abuse_penalty, calculate_ip_clustering_risk,
    clamp01, get_trust_tier]
  norm_num

example : component_blend spec_default_components = 109/200 := by
  simp [component_blend, spec_default_components, weight_of, COMPONENT_WEIGHTS, List.lookup]
  norm_num

example : get_trust_tier (1/2) = "Contributor" := by
  norm_num [get_trust_tier]

/-! ## Claim C1 -/

/-- Claim C1 (counterexample): the claim asserts that for a user with no
prior history, the composite score equals the weighted blend of the
documented per-component defaults and the tier is Novice.  Both parts
fail on the code: for an unknown user id the returned score 0.5 is
hard-coded and differs from the blend of the very component defaults it
returns (0.525) and from the blend of the documented defaults (0.545);
for an existing user with zero history the tier is Contributor, not
Novice. -/
theorem C1_counterexample :
    (calculate_trust_score none).score ≠ component_blend (calculate_trust_score none).components ∧
    (calculate_trust_score none).score ≠ component_blend spec_default_components ∧
    (calculate_trust_score (some empty_user)).tier ≠ "Novice" := by
  refine ⟨?_, ?_, ?_⟩
  · simp [calculate_trust_score, component_blend, weight_of, COMPONENT_WEIGHTS, List.lookup]
    norm_num
  · simp [calculate_trust_score, component_blend, spec_default_components, weight_of,
      COMPONENT_WEIGHTS, List.lookup]
    norm_num
  · simp [calculate_trust_score, empty_user, weight_of, COMPONENT_WEIGHTS, List.lookup,
      calculate_mastery_reliability, calculate_nli_track_record, calculate_community_validation,
      calculate_account_age_trust, calculate_interaction_entropy, calculate_vote_pattern_score,
      calculate_similarity_penalty, calculate_abuse_penalty, calculate_ip_clustering_risk,
      clamp01, get_trust_tier]
    norm_num
    decide

/-- Claim C1 (amended): for a user id not found in the store,
`calculate_trust_score` returns a fixed hard-coded result — score 0.5
and tier Novice — where 0.5 is not the weighted blend of the returned
component defaults (that blend is 0.525, a Contributor-band value, so
the Novice tier is likewise hard-coded rather than derived); for an
existing user with zero history the score is the computed blend of the
documented defaults, 0.545, and the tier is Contributor. -/
theorem C1_amended_no_history_result :
    (calculate_trust_score none).score = 1/2 ∧
    (calculate_trust_score none).tier = "Novice" ∧
    component_blend (calculate_trust_score none).components = 21/40 ∧
    get_trust_tier (21/40) = "Contributor" ∧
    get_trust_tier (1/2) = "Contributor" ∧
    (calculate_trust_score (some empty_user)).score = component_blend spec_default_components ∧
    component_blend spec_default_components = 109/200 ∧
    (calculate_trust_score (some empty_user)).tier = "Contributor" := by
  refine ⟨by norm_num [calculate_trust_score], by norm_num [calculate_trust_score], ?_, ?_, ?_, ?_, ?_, ?_⟩
  · simp [calculate_trust_score, component_blend, weight_of, COMPONENT_WEIGHTS, List.lookup]
    norm_num
  · norm_num [get_trust_tier]
  · norm_num [get_trust_tier]
  · simp [calculate_trust_score, empty_user, component_blend, spec_default_components, weight_of,
      COMPONENT_WEIGHTS, List.lookup,
      calculate_mastery_reliability, calculate_nli_track_record, calculate_community_validation,
      calculate_account_age_trust, calculate_interaction_entropy, calculate_vote_pattern_score,
      calculate_similarity_penalty, calculate_abuse_penalty, calculate_ip_clustering_risk,
      clamp01]
  · simp [component_blend, spec_default_components, weight_of, COMPONENT_WEIGHTS, List.lookup]
    norm_num
  · simp [calculate_trust_score, empty_user, weight_of, COMPONENT_WEIGHTS, List.lookup,
      calculate_mastery_reliability, calculate_nli_track_record, calculate_community_validation,
      calculate_account_age_trust, calculate_interaction_entropy, calculate_vote_pattern_score,
      calculate_similarity_penalty, calculate_abuse_penalty, calculate_ip_clustering_risk,
      clamp01, get_trust_tier]
    norm_num

/-! ## Claim C2: bounds machinery -/

lemma clamp01_nonneg (x : ℚ) : 0 ≤ clamp01 x := le_max_left 0 _

lemma clamp01_le_one (x : ℚ) : clamp01 x ≤ 1 := by
  unfold clamp01
  rcases le_or_lt x 1 with h | h
  · exact max_le (by norm_num) (min_le_left 1 x)
  · exact max_le (by norm_num) (min_le_left 1 x)

lemma mastery_reliability_mem (scores : List ℚ) :
    0 ≤ calculate_mastery_reliability scores ∧ calculate_mastery_reliability scores ≤ 1 := by
  unfold calculate_mastery_reliability
  split
  · norm_num
  · exact ⟨clamp01_nonneg _, clamp01_le_one _⟩

lemma nli_track_record_mem (verdicts : List String) :
    0 ≤ calculate_nli_track_record verdicts ∧ calculate_nli_track_record verdicts ≤ 1 := by
  unfold calculate_nli_track_record
  split
  · norm_num
  · rename_i hne
    have hlen : 0 < (verdicts.length : ℚ) := by
      have : verdicts.length ≠ 0 := fun h => hne (List.length_eq_zero.mp h)
      positivity
    constructor
    · positivity
    · rw [div_le_one hlen]
      exact_mod_cast List.length_filter_le _ verdicts

lemma community_validation_mem (answers : List (ℕ × ℕ)) :
    0 ≤ calculate_community_validation answers ∧ calculate_community_validation answers ≤ 1 := by
  unfold calculate_community_validation
  split
  · norm_num
  · dsimp only
    split
    · norm_num
    · exact ⟨clamp01_nonneg _, clamp01_le_one _⟩

lemma account_age_trust_mem (age_days : ℕ) :
    0 ≤ calculate_account_age_trust age_days ∧ calculate_account_age_trust age_days ≤ 1 :=
  ⟨clamp01_nonneg _, clamp01_le_one _⟩

lemma interaction_entropy_mem (unique_users : ℕ) :
    0 ≤ calculate_interaction_entropy unique_users ∧
      calculate_interaction_entropy unique_users ≤ 1 := by
  unfold calculate_interaction_entropy
  split_ifs <;> norm_num

lemma abuse_penalty_mem (flags : List Bool) :
    0 ≤ calculate_abuse_penalty flags ∧ calculate_abuse_penalty flags ≤ 1 := by
  unfold calculate_abuse_penalty
  dsimp only
  split
  · norm_num
  · refine ⟨le_max_left 0 _, max_le (by norm_num) ?_⟩
    have : (0:ℚ) ≤ (2/10) * ((flags.filter (fun r => !r)).length : ℚ) := by positivity
    linarith

lemma wsum_shift (l : List ℚ) : ∀ k : ℚ, wsum (k + 1) l = wsum k l + l.sum := by
  induction l with
  | nil => intro k; simp [wsum]
  | cons c cs ih =>
      intro k
      simp only [wsum, List.sum_cons, ih (k + 1)]
      ring

lemma length_mul_le_sum (l : List ℚ) (x : ℚ) (h : ∀ y ∈ l, x ≤ y) :
    (l.length : ℚ) * x ≤ l.sum := by
  induction l with
  | nil => simp
  | cons c cs ih =>
      have hc : x ≤ c := h c (List.mem_cons_self c cs)
      have hcs : (cs.length : ℚ) * x ≤ cs.sum := ih (fun y hy => h y (List.mem_cons_of_mem c hy))
      simp only [List.length_cons, List.sum_cons]
      push_cast
      linarith

/-- Chebyshev-style lower bound: on an ascending list,
`2 * sum((i+1)*cᵢ) ≥ (n+1) * sum(cᵢ)`. -/
lemma sorted_two_wsum_ge (l : List ℚ) (h : l.Sorted (· ≤ ·)) :
    ((l.length : ℚ) + 1) * l.sum ≤ 2 * wsum 1 l := by
  induction l with
  | nil => simp [wsum]
  | cons c cs ih =>
      rw [List.sorted_cons] at h
      have hW : ((cs.length : ℚ) + 1) * cs.sum ≤ 2 * wsum 1 cs := ih h.2
      have hs : (cs.length : ℚ) * c ≤ cs.sum := length_mul_le_sum cs c h.1
      have hw : wsum 1 (c :: cs) = c + (wsum 1 cs + cs.sum) := by
        simp only [wsum, wsum_shift cs 1]
        ring
      rw [hw]
      simp only [List.length_cons, List.sum_cons]
      push_cast
      nlinarith [hW, hs]

/-- Upper bound: on a nonnegative list, `sum((i+1)*cᵢ) ≤ n * sum(cᵢ)`. -/
lemma wsum_le_length_mul_sum (l : List ℚ) (h : ∀ y ∈ l, 0 ≤ y) :
    wsum 1 l ≤ (l.length : ℚ) * l.sum := by
  induction l with
  | nil => simp [wsum]
  | cons c cs ih =>
      have hc : 0 ≤ c := h c (List.mem_cons_self c cs)
      have hcs : ∀ y ∈ cs, 0 ≤ y := fun y hy => h y (List.mem_cons_of_mem c hy)
      have hW : wsum 1 cs ≤ (cs.length : ℚ) * cs.sum := ih hcs
      have hsum : 0 ≤ cs.sum := List.sum_nonneg hcs
      have hlen : (0:ℚ) ≤ (cs.length : ℚ) := by positivity
      have hw : wsum 1 (c :: cs) = c + (wsum 1 cs + cs.sum) := by
        simp only [wsum, wsum_shift cs 1]
        ring
      rw [hw]
      simp only [List.length_cons, List.sum_cons]
      push_cast
      nlinarith [mul_nonneg hlen hc]

/-- The Gini expression lies in `[0, 1]` on a nonempty ascending list of
counts that are all at least 1. -/
lemma gini_coefficient_mem (l : List ℚ) (hs : l.Sorted (· ≤ ·)) (hne : l ≠ [])
    (h1 : ∀ y ∈ l, 1 ≤ y) :
    0 ≤ gini_coefficient l ∧ gini_coefficient l ≤ 1 := by
  unfold gini_coefficient
  have hn1 : 1 ≤ (l.length : ℚ) := by
    have : l.length ≠ 0 := fun h => hne (List.length_eq_zero.mp h)
    have : 1 ≤ l.length := Nat.one_le_iff_ne_zero.mpr this
    exact_mod_cast this
  have hn0 : 0 < (l.length : ℚ) := by linarith
  have hT : (l.length : ℚ) ≤ l.sum := by
    simpa using length_mul_le_sum l 1 h1
  have hT0 : 0 < l.sum := by linarith
  have hnT : 0 < (l.length : ℚ) * l.sum := by positivity
  have hlow : ((l.length : ℚ) + 1) * l.sum ≤ 2 * wsum 1 l := sorted_two_wsum_ge l hs
  have hup : wsum 1 l ≤ (l.length : ℚ) * l.sum :=
    wsum_le_length_mul_sum l (fun y hy => le_trans (by norm_num) (h1 y hy))
  constructor
  · rw [sub_nonneg, div_le_div_iff hn0 hnT]
    nlinarith [hlow]
  · have h2 : 2 * wsum 1 l / ((l.length : ℚ) * l.sum) ≤ 2 := by
      rw [div_le_iff hnT]
      linarith
    have h3 : 1 ≤ ((l.length : ℚ) + 1) / (l.length : ℚ) := by
      rw [le_div_iff hn0]
      linarith
    linarith

lemma vote_pattern_score_mem (targets : List ℕ) :
    0 ≤ calculate_vote_pattern_score targets ∧ calculate_vote_pattern_score targets ≤ 1 := by
  unfold calculate_vote_pattern_score
  split
  · norm_num
  · rename_i hlen
    dsimp only
    set counts : List ℚ := targets.dedup.map (fun t => ((targets.count t : ℕ) : ℚ)) with hcounts
    set sorted := counts.insertionSort (· ≤ ·) with hsorted_def
    have hperm : sorted.Perm counts := List.perm_insertionSort _ _
    have hs : sorted.Sorted (· ≤ ·) := List.sorted_insertionSort _ _
    have h1 : ∀ y ∈ sorted, 1 ≤ y := by
      intro y hy
      have : y ∈ counts := hperm.mem_iff.mp hy
      rw [hcounts, List.mem_map] at this
      obtain ⟨t, ht, rfl⟩ := this
      have : t ∈ targets := List.mem_dedup.mp ht
      have : 1 ≤ targets.count t := List.count_pos_iff.mpr this
      exact_mod_cast this
    have hne : sorted ≠ [] := by
      intro h
      have h0 : targets ≠ [] := by
        intro h'
        rw [h'] at hlen
        simp at hlen
      have h2 : counts = [] := by
        have hp := hperm.symm
        rw [h] at hp
        exact hp.eq_nil
      rw [hcounts, List.map_eq_nil] at h2
      exact h0 ((List.dedup_eq_nil _).mp h2)
    have := gini_coefficient_mem sorted hs hne h1
    constructor <;> linarith [this.1, this.2]

/-- All nine components lie in the unit interval. -/
def components_in_unit_interval (c : TrustComponents) : Prop :=
  (0 ≤ c.mastery_reliability ∧ c.mastery_reliability ≤ 1) ∧
  (0 ≤ c.nli_track_record ∧ c.nli_track_record ≤ 1) ∧
  (0 ≤ c.community_validation ∧ c.community_validation ≤ 1) ∧
  (0 ≤ c.account_age_trust ∧ c.account_age_trust ≤ 1) ∧
  (0 ≤ c.interaction_entropy ∧ c.interaction_entropy ≤ 1) ∧
  (0 ≤ c.vote_pattern_score ∧ c.vote_pattern_score ≤ 1) ∧
  (0 ≤ c.similarity_flags ∧ c.similarity_flags ≤ 1) ∧
  (0 ≤ c.abuse_flags ∧ c.abuse_flags ≤ 1) ∧
  (0 ≤ c.ip_clustering_risk ∧ c.ip_clustering_risk ≤ 1)

/-- Claim C2: the nine component weights sum to exactly 1, and for every
user (unknown or with arbitrary store data) the composite score and all
nine component scores lie in `[0, 1]`. -/
theorem C2_weights_sum_one_and_scores_in_unit_interval :
    ((COMPONENT_WEIGHTS.map Prod.snd).sum = 1) ∧
    ∀ user : Option UserData,
      (0 ≤ (calculate_trust_score user).score ∧ (calculate_trust_score user).score ≤ 1) ∧
      components_in_unit_interval (calculate_trust_score user).components := by
  constructor
  · norm_num [COMPONENT_WEIGHTS]
  · intro user
    match user with
    | none =>
        refine ⟨by norm_num [calculate_trust_score], ?_⟩
        norm_num [calculate_trust_score, components_in_unit_interval]
    | some u =>
        obtain ⟨m1, m2⟩ := mastery_reliability_mem u.masteryScores
        obtain ⟨n1, n2⟩ := nli_track_record_mem u.factCheckVerdicts
        obtain ⟨c1, c2⟩ := community_validation_mem u.answers
        obtain ⟨a1, a2⟩ := account_age_trust_mem u.ageDays
        obtain ⟨e1, e2⟩ := interaction_entropy_mem u.uniqueInteractionUsers
        obtain ⟨v1, v2⟩ := vote_pattern_score_mem u.voteTargets
        obtain ⟨b1, b2⟩ := abuse_penalty_mem u.abuseFlagResolved
        constructor
        · simp only [calculate_trust_score]
          simp [weight_of, COMPONENT_WEIGHTS, List.lookup,
            calculate_similarity_penalty, calculate_ip_clustering_risk]
          constructor <;> linarith
        · simp only [calculate_trust_score, components_in_unit_interval]
          refine ⟨⟨m1, m2⟩, ⟨n1, n2⟩, ⟨c1, c2⟩, ⟨a1, a2⟩, ⟨e1, e2⟩, ⟨v1, v2⟩,
            by norm_num [calculate_similarity_penalty], ⟨b1, b2⟩,
            by norm_num [calculate_ip_clustering_risk]⟩

/-! ## Vote analyzer (`vote_analyzer.py`)

Upvote records are modelled as pairs `(voterId, targetUserId)`; the vote
lists passed to the detectors stand for the in-window `UPVOTE` rows the
database queries return. -/

/-- A detected voting pattern (dataclass `VotePattern`; the redundant
`evidence` dictionary is omitted). -/
structure VotePattern where
  pattern_type : String
  users_involved : List ℕ
  confidence : ℚ
deriving DecidableEq

/-- Vote-manipulation report (dataclass `VoteAnalysisReport`). -/
structure VoteAnalysisReport where
  is_suspicious : Bool
  patterns : List VotePattern
  risk_score : ℚ
  recommendation : String
deriving DecidableEq

/-- `voted_for`: the distinct users the subject upvoted in-window. -/
def voted_for (votes : List (ℕ × ℕ)) (user_id : ℕ) : List ℕ :=
  ((votes.filter (fun v => v.1 = user_id)).map Prod.snd).dedup

/-- `voted_by`: the distinct users who upvoted the subject in-window. -/
def voted_by (votes : List (ℕ × ℕ)) (user_id : ℕ) : List ℕ :=
  ((votes.filter (fun v => v.2 = user_id)).map Prod.fst).dedup

/-- `mutual`: the intersection of `voted_for` and `voted_by`. -/
def mutual_users (votes : List (ℕ × ℕ)) (user_id : ℕ) : List ℕ :=
  (voted_for votes user_id).filter (fun u => u ∈ voted_by votes user_id)

/-- `detect_mutual_voting`. -/
def detect_mutual_voting (votes : List (ℕ × ℕ)) (user_id : ℕ) : Option VotePattern :=
  let vf := voted_for votes user_id
  let mut_set := mutual_users votes user_id
  if vf = [] then none
  else
    let mutual_ratio : ℚ := (mut_set.length : ℚ) / (vf.length : ℚ)
    if 8/10 ≤ mutual_ratio ∧ 3 ≤ mut_set.length then
      some { pattern_type := "MUTUAL_VOTING"
             users_involved := user_id :: mut_set
             confidence := mutual_ratio }
    else none

/-- Adjacency `graph[voter] = set of upvoted targets` (`defaultdict(set)`
iteration modelled in first-occurrence order). -/
def graph_neighbors (votes : List (ℕ × ℕ)) (voter : ℕ) : List ℕ :=
  ((votes.filter (fun v => v.1 = voter)).map Prod.snd).dedup

/-- The recursive helper `find_cycle` of `detect_vote_ring`: depth-first
search with a per-path visited set, a cut-off for paths longer than 10,
and acceptance of a return to `start` after at least 3 steps.  Lean
accepts this definition because `11 - path.length` decreases on every
recursive call, which is exactly the termination argument of claim C9. -/
def find_cycle (g : ℕ → List ℕ) (start current : ℕ) (path visited : List ℕ) :
    Option (List ℕ) :=
  if current ∈ visited then
    if current = start ∧ 3 ≤ path.length then some (path ++ [current]) else none
  else if _h : 10 < path.length then none
  else
    (g current).findSome? fun n =>
      find_cycle g start n (path ++ [current]) (visited ++ [current])
termination_by 11 - path.length
decreasing_by simp [List.length_append]; omega

/-- `detect_vote_ring`. -/
def detect_vote_ring (votes : List (ℕ × ℕ)) (user_id : ℕ) : Option VotePattern :=
  match find_cycle (graph_neighbors votes) user_id user_id [] [] with
  | some cycle =>
      some { pattern_type := "VOTE_RING"
             users_involved := cycle
             confidence := 9/10 }
  | none => none

/-- Fuel-indexed variant of `find_cycle`, used to express that the
recursion depth of `find_cycle` is bounded. -/
def find_cycle_fuel (g : ℕ → List ℕ) (start : ℕ) :
    ℕ → ℕ → List ℕ → List ℕ → Option (List ℕ)
  | 0, _, _, _ => none
  | fuel + 1, current, path, visited =>
    if current ∈ visited then
      if current = start ∧ 3 ≤ path.length then some (path ++ [current]) else none
    else if 10 < path.length then none
    else
      (g current).findSome? fun n =>
        find_cycle_fuel g start fuel n (path ++ [current]) (visited ++ [current])

lemma findSome?_congr {α β : Type} {f g : α → Option β} :
    ∀ {l : List α}, (∀ a ∈ l, f a = g a) → l.findSome? f = l.findSome? g := by
  intro l
  induction l with
  | nil => intro _; rfl
  | cons a as ih =>
      intro h
      simp only [List.findSome?]
      rw [h a (List.mem_cons_self a as)]
      cases g a with
      | none => exact ih (fun x hx => h x (List.mem_cons_of_mem a hx))
      | some b => rfl

/-- Any fuel larger than the remaining depth budget `11 - path.length`
computes `find_cycle` exactly: the DFS recursion depth is bounded. -/
lemma find_cycle_fuel_spec (g : ℕ → List ℕ) (start : ℕ) :
    ∀ (fuel : ℕ) (current : ℕ) (path visited : List ℕ),
      11 - path.length < fuel →
      find_cycle_fuel g start fuel current path visited =
        find_cycle g start current path visited := by
  intro fuel
  induction fuel with
  | zero => intro current path visited h; exact absurd h (Nat.not_lt_zero _)
  | succ f ih =>
      intro current path visited h
      rw [find_cycle]
      simp only [find_cycle_fuel]
      by_cases hv : current ∈ visited
      · simp [hv]
      · simp only [hv, if_false]
        by_cases hp : 10 < path.length
        · simp [hp]
        · simp only [hp, dif_neg, if_false]
          refine findSome?_congr ?_
          intro n _
          refine ih n (path ++ [current]) (visited ++ [current]) ?_
          simp only [List.length_append, List.length_cons]
          omega

/-- The per-pattern risk contribution of the `risk_score` loop in
`analyze_user_voting`: mutual patterns add `confidence * 0.3`, vote
rings add a flat `0.7`, coordinated patterns a flat `0.5`. -/
def code_risk_contribution (p : VotePattern) : ℚ :=
  if p.pattern_type = "MUTUAL_VOTING" then p.confidence * (3/10)
  else if p.pattern_type = "VOTE_RING" then 7/10
  else if p.pattern_type = "COORDINATED" then 1/2
  else 0

/-- `analyze_user_voting`. -/
def analyze_user_voting (votes : List (ℕ × ℕ)) (user_id : ℕ) : VoteAnalysisReport :=
  let patterns :=
    (match detect_mutual_voting votes user_id with | some p => [p] | none => []) ++
    (match detect_vote_ring votes user_id with | some p => [p] | none => [])
  let risk_score := min 1 ((patterns.map code_risk_contribution).sum)
  { is_suspicious := !patterns.isEmpty
    patterns := patterns
    risk_score := risk_score
    recommendation :=
      if 7/10 ≤ risk_score then "INVESTIGATE"
      else if 4/10 ≤ risk_score then "WARN"
      else "ALLOW" }

/-- The aggregate-risk formula as the spec words it, for comparison with
the code: the sum over detected patterns of pattern weight (mutual 0.3,
ring 0.7, coordinated 0.5) times the pattern's confidence, capped at 1. -/
def spec_pattern_weight (p : VotePattern) : ℚ :=
  if p.pattern_type = "MUTUAL_VOTING" then 3/10
  else if p.pattern_type = "VOTE_RING" then 7/10
  else if p.pattern_type = "COORDINATED" then 1/2
  else 0

/-- The spec's aggregate risk: `min 1 (Σ weight(p) * confidence(p))`. -/
def spec_aggregate_risk (patterns : List VotePattern) : ℚ :=
  min 1 ((patterns.map (fun p => spec_pattern_weight p * p.confidence)).sum)

/-- The synthetic 3-cycle of upvotes `1 → 2 → 3 → 1`. -/
def cycle_votes : List (ℕ × ℕ) := [(1, 2), (2, 3), (3, 1)]

lemma find_cycle_on_cycle_votes :
    find_cycle (graph_neighbors cycle_votes) 1 1 [] [] = some [1, 2, 3, 1] := by
  rw [← find_cycle_fuel_spec (graph_neighbors cycle_votes) 1 12 1 [] [] (by norm_num)]
  decide

lemma detect_vote_ring_on_cycle_votes :
    detect_vote_ring cycle_votes 1 =
      some { pattern_type := "VOTE_RING", users_involved := [1, 2, 3, 1], confidence := 9/10 } := by
  unfold detect_vote_ring
  rw [find_cycle_on_cycle_votes]

lemma detect_mutual_voting_on_cycle_votes :
    detect_mutual_voting cycle_votes 1 = none := by
  unfold detect_mutual_voting
  simp [voted_for, voted_by, mutual_users, cycle_votes]

/-! ## Claim C3 -/

/-- Claim C3 (counterexample): on the synthetic 3-cycle `1→2→3→1`,
`analyze_user_voting` detects one VOTE_RING pattern of confidence 0.9
and reports risk 0.7 (the flat ring increment), whereas the claimed
formula `Σ pattern_weight × confidence` would give `0.7 × 0.9 = 0.63`;
so the claimed risk formula is false on the code. -/
theorem C3_counterexample :
    (analyze_user_voting cycle_votes 1).risk_score = 7/10 ∧
    spec_aggregate_risk (analyze_user_voting cycle_votes 1).patterns = 63/100 ∧
    (analyze_user_voting cycle_votes 1).risk_score ≠
      spec_aggregate_risk (analyze_user_voting cycle_votes 1).patterns ∧
    (analyze_user_voting cycle_votes 1).recommendation = "INVESTIGATE" := by
  have h1 : (analyze_user_voting cycle_votes 1).risk_score = 7/10 := by
    simp [analyze_user_voting, detect_mutual_voting_on_cycle_votes,
      detect_vote_ring_on_cycle_votes, code_risk_contribution]
    norm_num [min_def]
  have h2 : spec_aggregate_risk (analyze_user_voting cycle_votes 1).patterns = 63/100 := by
    simp [analyze_user_voting, detect_mutual_voting_on_cycle_votes,
      detect_vote_ring_on_cycle_votes, spec_aggregate_risk, spec_pattern_weight]
    norm_num [min_def]
  refine ⟨h1, h2, ?_, ?_⟩
  · rw [h1, h2]; norm_num
  · simp [analyze_user_voting, detect_mutual_voting_on_cycle_votes,
      detect_vote_ring_on_cycle_votes, code_risk_contribution]
    norm_num [min_def]

/-- Claim C3 (amended): in `analyze_user_voting` the aggregate risk is
the sum over detected patterns of `confidence × 0.3` for MUTUAL_VOTING
but a flat `0.7` for VOTE_RING and a flat `0.5` for COORDINATED (the
confidence is not multiplied in for the latter two), capped at 1.0; the
recommendation is INVESTIGATE when risk ≥ 0.7, WARN when 0.4 ≤ risk <
0.7 and ALLOW otherwise. -/
theorem C3_amended_risk_formula (votes : List (ℕ × ℕ)) (user_id : ℕ) :
    (analyze_user_voting votes user_id).risk_score =
      min 1 (((analyze_user_voting votes user_id).patterns.map (fun p =>
        if p.pattern_type = "MUTUAL_VOTING" then p.confidence * (3/10)
        else if p.pattern_type = "VOTE_RING" then 7/10
        else if p.pattern_type = "COORDINATED" then 1/2
        else 0)).sum) ∧
    (analyze_user_voting votes user_id).recommendation =
      (if 7/10 ≤ (analyze_user_voting votes user_id).risk_score then "INVESTIGATE"
       else if 4/10 ≤ (analyze_user_voting votes user_id).risk_score then "WARN"
       else "ALLOW") := by
  constructor
  · rfl
  · rfl

/-! ## Claim C4 -/

/-- Claim C4: `detect_mutual_voting` reports a pattern iff the subject
cast at least one in-window upvote, the mutual ratio is at least 0.8 and
the mutual set has at least 3 members; in particular a mutual ratio of
1.0 with only 2 mutual partners (votes `1↔2`, `1↔3`) is not flagged. -/
theorem C4_mutual_voting_iff :
    (∀ (votes : List (ℕ × ℕ)) (user_id : ℕ),
      (detect_mutual_voting votes user_id).isSome = true ↔
        (voted_for votes user_id ≠ [] ∧
         8/10 ≤ ((mutual_users votes user_id).length : ℚ) /
            ((voted_for votes user_id).length : ℚ) ∧
         3 ≤ (mutual_users votes user_id).length)) ∧
    detect_mutual_voting [(1, 2), (1, 3), (2, 1), (3, 1)] 1 = none := by
  constructor
  · intro votes user_id
    unfold detect_mutual_voting
    dsimp only
    split_ifs with h1 h2
    · simp [h1]
    · simp [h1, h2]
    · simp only [Option.isSome_none, Bool.false_eq_true, false_iff]
      intro hc
      exact h2 ⟨hc.2.1, hc.2.2⟩
  · unfold detect_mutual_voting
    simp [voted_for, voted_by, mutual_users]

/-! ## Claim C9 -/

/-- Fuel-indexed variant of `detect_vote_ring`, used to state the
termination bound of the DFS. -/
def detect_vote_ring_fuel (votes : List (ℕ × ℕ)) (user_id : ℕ) (fuel : ℕ) :
    Option VotePattern :=
  match find_cycle_fuel (graph_neighbors votes) user_id fuel user_id [] [] with
  | some cycle =>
      some { pattern_type := "VOTE_RING"
             users_involved := cycle
             confidence := 9/10 }
  | none => none

/-- Claim C9: the cycle search of `detect_vote_ring` terminates on every
finite vote graph — each recursive call extends the path by one, paths
longer than 10 are cut off, so a recursion-depth budget of 12 already
computes the (total) function on any graph and any subject. -/
theorem C9_vote_ring_dfs_terminates (votes : List (ℕ × ℕ)) (user_id : ℕ)
    (fuel : ℕ) (h : 11 < fuel) :
    detect_vote_ring_fuel votes user_id fuel = detect_vote_ring votes user_id := by
  unfold detect_vote_ring_fuel detect_vote_ring
  rw [find_cycle_fuel_spec (graph_neighbors votes) user_id fuel user_id [] []
    (by simpa using h)]

/-- Witness for C9: with fuel 12 the bounded search on the 3-cycle graph
agrees with `detect_vote_ring`. -/
theorem C9_witness :
    11 < 12 ∧ detect_vote_ring_fuel cycle_votes 1 12 = detect_vote_ring cycle_votes 1 :=
  ⟨by norm_num, C9_vote_ring_dfs_terminates cycle_votes 1 12 (by norm_num)⟩

/-! ## Claim C10 -/

/-- Claim C10: when the subject cast no in-window upvotes, the `if not
voted_for` guard fires before the mutual ratio is formed, so
`detect_mutual_voting` returns `None` even if others upvoted the
subject. -/
theorem C10_empty_voted_for_returns_none (votes : List (ℕ × ℕ)) (user_id : ℕ)
    (h : voted_for votes user_id = []) :
    detect_mutual_voting votes user_id = none := by
  unfold detect_mutual_voting
  simp [h]

/-- Witness for C10: user 1 cast no upvotes but was upvoted by user 2. -/
theorem C10_witness :
    voted_for [(2, 1)] 1 = [] ∧ detect_mutual_voting [(2, 1)] 1 = none :=
  ⟨by decide, C10_empty_voted_for_returns_none [(2, 1)] 1 (by decide)⟩

/-! ## Similarity detector (`similarity_detector.py`)

`check_similarity` is embedded over the list of stored fingerprint rows
the database query returns (same content type, in-window) and over an
arbitrary similarity function `sim` standing for the float-valued
`cosine_similarity` on embedding vectors; every theorem below holds for
every such function.  Text hashes are modelled as abstract numbers. -/

/-- A stored fingerprint row (`content_embedding` record). -/
structure ContentEmbeddingRow where
  contentId : ℕ
  userId : ℕ
  contentHash : ℕ
  embedding : List ℚ
deriving DecidableEq

/-- A similarity match (dataclass `SimilarityMatch`). -/
structure SimilarityMatch where
  content_id : ℕ
  user_id : ℕ
  similarity : ℚ
deriving DecidableEq

/-- Similarity report (dataclass `SimilarityReport`). -/
structure SimilarityReport where
  is_duplicate : Bool
  confidence : ℚ
  matches_list : List SimilarityMatch
  recommendation : String
deriving DecidableEq

/-- The candidate loop of `find_similar_content`: an exact hash match is
recorded with similarity 1.0, otherwise the embedding similarity is
recorded when it reaches the moderate threshold 0.75. -/
def raw_matches (sim : List ℚ → List ℚ → ℚ) (embedding : List ℚ) (content_hash : ℕ)
    (candidates : List ContentEmbeddingRow) : List SimilarityMatch :=
  candidates.foldr
    (fun c acc =>
      if c.contentHash = content_hash then
        { content_id := c.contentId, user_id := c.userId, similarity := 1 } :: acc
      else if 75/100 ≤ sim embedding c.embedding then
        { content_id := c.contentId, user_id := c.userId,
          similarity := sim embedding c.embedding } :: acc
      else acc)
    []

/-- `find_similar_content`: matches sorted by similarity descending,
truncated to the limit 10. -/
def find_similar_content (sim : List ℚ → List ℚ → ℚ) (embedding : List ℚ)
    (content_hash : ℕ) (candidates : List ContentEmbeddingRow) : List SimilarityMatch :=
  ((raw_matches sim embedding content_hash candidates).insertionSort
    (fun a b => b.similarity ≤ a.similarity)).take 10

/-- Python's `max` over a nonempty list (0 on the empty list, which the
code never reaches). -/
def list_max_q : List ℚ → ℚ
  | [] => 0
  | x :: xs => xs.foldl max x

/-- `check_similarity` (the fingerprint-storage side effect on
non-duplicates does not affect the returned report and is omitted; the
Python field name `matches` is a Lean keyword, hence `matches_list`). -/
def check_similarity (sim : List ℚ → List ℚ → ℚ) (user_id : ℕ) (content_hash : ℕ)
    (embedding : List ℚ) (candidates : List ContentEmbeddingRow) : SimilarityReport :=
  let ms := find_similar_content sim embedding content_hash candidates
  match ms with
  | [] =>
      { is_duplicate := false, confidence := 0, matches_list := ms,
        recommendation := "ALLOW" }
  | m :: _ =>
      let exact_matches := ms.filter (fun x => 98/100 ≤ x.similarity)
      let high_matches := ms.filter (fun x => 90/100 ≤ x.similarity)
      if exact_matches ≠ [] then
        { is_duplicate := true
          confidence := list_max_q (exact_matches.map SimilarityMatch.similarity)
          matches_list := ms
          recommendation :=
            if exact_matches.any (fun x => x.user_id != user_id) then "BLOCK" else "WARN" }
      else if high_matches ≠ [] then
        { is_duplicate := true
          confidence := list_max_q (high_matches.map SimilarityMatch.similarity)
          matches_list := ms
          recommendation := "WARN" }
      else
        { is_duplicate := false, confidence := m.similarity, matches_list := ms,
          recommendation := "ALLOW" }

lemma foldl_max_init_le : ∀ (xs : List ℚ) (b : ℚ), b ≤ xs.foldl max b := by
  intro xs
  induction xs with
  | nil => intro b; simp
  | cons y ys ih =>
      intro b
      simp only [List.foldl]
      exact le_trans (le_max_left b y) (ih (max b y))

lemma le_list_max_q (l : List ℚ) (a : ℚ) (hne : l ≠ []) (h : ∀ x ∈ l, a ≤ x) :
    a ≤ list_max_q l := by
  match l with
  | [] => exact absurd rfl hne
  | x :: xs =>
      exact le_trans (h x (List.mem_cons_self x xs)) (foldl_max_init_le xs x)

lemma filter_sim_ne_nil {l : List SimilarityMatch} {q : ℚ} :
    l.filter (fun x => q ≤ x.similarity) ≠ [] ↔ ∃ m ∈ l, q ≤ m.similarity := by
  rw [Ne, List.filter_eq_nil_iff]
  simp

lemma raw_matches_hash_mem (sim : List ℚ → List ℚ → ℚ) (embedding : List ℚ)
    (content_hash : ℕ) :
    ∀ (candidates : List ContentEmbeddingRow), ∀ c ∈ candidates,
      c.contentHash = content_hash →
      ∃ m ∈ raw_matches sim embedding content_hash candidates,
        m.content_id = c.contentId ∧ m.user_id = c.userId ∧ m.similarity = 1 := by
  intro candidates
  induction candidates with
  | nil => intro c hc; exact absurd hc (List.not_mem_nil c)
  | cons d ds ih =>
      intro c hc hhash
      rcases List.mem_cons.mp hc with rfl | hmem
      · refine ⟨{ content_id := c.contentId, user_id := c.userId, similarity := 1 }, ?_, rfl, rfl, rfl⟩
        simp [raw_matches, hhash]
      · obtain ⟨m, hm, hprop⟩ := ih c hmem hhash
        refine ⟨m, ?_, hprop⟩
        simp only [raw_matches, List.foldr_cons] at hm ⊢
        split_ifs <;> simp [List.mem_cons, hm]


lemma check_similarity_matches_list (sim : List ℚ → List ℚ → ℚ)
    (user_id content_hash : ℕ) (embedding : List ℚ)
    (candidates : List ContentEmbeddingRow) :
    (check_similarity sim user_id content_hash embedding candidates).matches_list =
      find_similar_content sim embedding content_hash candidates := by
  simp only [check_similarity]
  generalize find_similar_content sim embedding content_hash candidates = ms
  cases ms with
  | nil => rfl
  | cons m rest =>
      dsimp only
      split_ifs <;> rfl

lemma check_similarity_exact_spec (sim : List ℚ → List ℚ → ℚ)
    (user_id content_hash : ℕ) (embedding : List ℚ)
    (candidates : List ContentEmbeddingRow)
    (hex : ∃ m ∈ find_similar_content sim embedding content_hash candidates,
      98/100 ≤ m.similarity) :
    (check_similarity sim user_id content_hash embedding candidates).is_duplicate = true ∧
    98/100 ≤ (check_similarity sim user_id content_hash embedding candidates).confidence ∧
    ((∃ m ∈ find_similar_content sim embedding content_hash candidates,
        98/100 ≤ m.similarity ∧ m.user_id ≠ user_id) →
      (check_similarity sim user_id content_hash embedding candidates).recommendation = "BLOCK") ∧
    ((∀ m ∈ find_similar_content sim embedding content_hash candidates,
        98/100 ≤ m.similarity → m.user_id = user_id) →
      (check_similarity sim user_id content_hash embedding candidates).recommendation = "WARN") := by
  obtain ⟨m0, hm0, hsim0⟩ := hex
  rcases hls : find_similar_content sim embedding content_hash candidates with _ | ⟨m, rest⟩
  · rw [hls] at hm0
    exact absurd hm0 (List.not_mem_nil m0)
  · rw [hls] at hm0
    have hexact_ne : (m :: rest).filter (fun x => 98/100 ≤ x.similarity) ≠ [] :=
      filter_sim_ne_nil.mpr ⟨m0, hm0, hsim0⟩
    simp only [check_similarity, hls]
    rw [if_pos hexact_ne]
    refine ⟨rfl, ?_, ?_, ?_⟩
    · apply le_list_max_q
      · simp only [Ne, List.map_eq_nil_iff]
        exact hexact_ne
      · intro x hx
        obtain ⟨e, he, rfl⟩ := List.mem_map.mp hx
        have h2 := (List.mem_filter.mp he).2
        simpa using h2
    · rintro ⟨mb, hmb, hbsim, hbne⟩
      have hmem : mb ∈ (m :: rest).filter (fun x => 98/100 ≤ x.similarity) :=
        List.mem_filter.mpr ⟨hmb, by simpa using hbsim⟩
      have hany : ((m :: rest).filter (fun x => 98/100 ≤ x.similarity)).any
          (fun x => x.user_id != user_id) = true :=
        List.any_eq_true.mpr ⟨mb, hmem, bne_iff_ne.mpr hbne⟩
      simp only [SimilarityReport.recommendation]
      rw [if_pos hany]
    · intro hall
      have hany : ((m :: rest).filter (fun x => 98/100 ≤ x.similarity)).any
          (fun x => x.user_id != user_id) = false := by
        rw [Bool.eq_false_iff, Ne, List.any_eq_true]
        rintro ⟨x, hxmem, hxne⟩
        have hxm := List.mem_filter.mp hxmem
        have hxsim : 98/100 ≤ x.similarity := by simpa using hxm.2
        have hxeq : x.user_id = user_id := hall x hxm.1 hxsim
        exact (bne_iff_ne.mp hxne) hxeq
      simp only [SimilarityReport.recommendation]
      rw [if_neg (by rw [hany]; exact Bool.false_ne_true)]

/-! ## Claim C5 -/

/-- Claim C5: if `check_similarity` finds a stored fingerprint with
similarity at least 0.98 (and an exact hash match always enters the
candidate matches with similarity 1.0 — last conjunct), it reports
`is_duplicate = true` with confidence at least 0.98; the recommendation
is BLOCK when some such match belongs to a different owner, and WARN
when all such matches belong to the submitting owner.  The theorem holds
for every similarity function `sim`, in particular for the float cosine
similarity the code plugs in. -/
theorem C5_exact_match_classification (sim : List ℚ → List ℚ → ℚ)
    (user_id content_hash : ℕ) (embedding : List ℚ)
    (candidates : List ContentEmbeddingRow) :
    ((∃ m ∈ (check_similarity sim user_id content_hash embedding candidates).matches_list,
        98/100 ≤ m.similarity) →
      (check_similarity sim user_id content_hash embedding candidates).is_duplicate = true ∧
      98/100 ≤ (check_similarity sim user_id content_hash embedding candidates).confidence) ∧
    ((∃ m ∈ (check_similarity sim user_id content_hash embedding candidates).matches_list,
        98/100 ≤ m.similarity ∧ m.user_id ≠ user_id) →
      (check_similarity sim user_id content_hash embedding candidates).recommendation = "BLOCK") ∧
    ((∃ m ∈ (check_similarity sim user_id content_hash embedding candidates).matches_list,
        98/100 ≤ m.similarity) →
     (∀ m ∈ (check_similarity sim user_id content_hash embedding candidates).matches_list,
        98/100 ≤ m.similarity → m.user_id = user_id) →
      (check_similarity sim user_id content_hash embedding candidates).recommendation = "WARN") ∧
    (∀ c ∈ candidates, c.contentHash = content_hash →
      ∃ m ∈ raw_matches sim embedding content_hash candidates,
        m.content_id = c.contentId ∧ m.user_id = c.userId ∧ m.similarity = 1) := by
  rw [check_similarity_matches_list]
  refine ⟨?_, ?_, ?_, fun c hc hh => raw_matches_hash_mem sim embedding content_hash candidates c hc hh⟩
  · intro hex
    have h := check_similarity_exact_spec sim user_id content_hash embedding candidates hex
    exact ⟨h.1, h.2.1⟩
  · intro hb
    obtain ⟨mb, hmb, hbsim, hbne⟩ := hb
    have h := check_similarity_exact_spec sim user_id content_hash embedding candidates
      ⟨mb, hmb, hbsim⟩
    exact h.2.2.1 ⟨mb, hmb, hbsim, hbne⟩
  · intro hex hall
    have h := check_similarity_exact_spec sim user_id content_hash embedding candidates hex
    exact h.2.2.2 hall

/-- Witness for C5: a single stored fingerprint with the same hash (5)
but a different owner (2 ≠ 7) yields an exact match with similarity 1
and recommendation BLOCK. -/
theorem C5_witness :
    (∃ m ∈ (check_similarity (fun _ _ => 0) 7 5 []
        [{ contentId := 1, userId := 2, contentHash := 5, embedding := [] }]).matches_list,
      98/100 ≤ m.similarity ∧ m.user_id ≠ 7) ∧
    (check_similarity (fun _ _ => 0) 7 5 []
        [{ contentId := 1, userId := 2, contentHash := 5, embedding := [] }]).recommendation =
      "BLOCK" := by
  have hyp : ∃ m ∈ (check_similarity (fun _ _ => 0) 7 5 []
      [{ contentId := 1, userId := 2, contentHash := 5, embedding := [] }]).matches_list,
      98/100 ≤ m.similarity ∧ m.user_id ≠ 7 := by
    refine ⟨{ content_id := 1, user_id := 2, similarity := 1 }, ?_, by norm_num, by norm_num⟩
    rw [check_similarity_matches_list]
    norm_num [find_similar_content, raw_matches, List.insertionSort]
  exact ⟨hyp, (C5_exact_match_classification (fun _ _ => 0) 7 5 []
    [{ contentId := 1, userId := 2, contentHash := 5, embedding := [] }]).2.1 hyp⟩

/-! ## Claim C8: `cosine_similarity`

The float arithmetic of `cosine_similarity` is modelled exactly over the
reals (`math.sqrt` as `Real.sqrt`); the zero-magnitude guard makes the
function total, which is the "never NaN" part of the claim. -/

/-- `sum(x * y for x, y in zip(a, b))`. -/
def vec_dot (a b : List ℝ) : ℝ := ((a.zip b).map (fun p => p.1 * p.2)).sum

/-- `math.sqrt(sum(x * x for x in a))`. -/
noncomputable def vec_magnitude (a : List ℝ) : ℝ :=
  Real.sqrt ((a.map (fun x => x * x)).sum)

/-- `cosine_similarity`. -/
noncomputable def cosine_similarity (a b : List ℝ) : ℝ :=
  if vec_magnitude a = 0 ∨ vec_magnitude b = 0 then 0
  else vec_dot a b / (vec_magnitude a * vec_magnitude b)

lemma zip_self_map (a : List ℝ) : a.zip a = a.map (fun x => (x, x)) := by
  induction a with
  | nil => rfl
  | cons x xs ih => simp [ih]

lemma sum_sq_nonneg (a : List ℝ) : 0 ≤ (a.map (fun x => x * x)).sum := by
  refine List.sum_nonneg ?_
  intro z hz
  obtain ⟨y, _, rfl⟩ := List.mem_map.mp hz
  exact mul_self_nonneg y

lemma sum_sq_pos_of_ne_zero (a : List ℝ) (h : ∃ x ∈ a, x ≠ 0) :
    0 < (a.map (fun x => x * x)).sum := by
  obtain ⟨x, hx, hxne⟩ := h
  have hmem : x * x ∈ a.map (fun y => y * y) := List.mem_map_of_mem _ hx
  have hle : x * x ≤ (a.map (fun y => y * y)).sum := by
    refine List.single_le_sum ?_ _ hmem
    intro z hz
    obtain ⟨y, _, rfl⟩ := List.mem_map.mp hz
    exact mul_self_nonneg y
  have hpos : 0 < x * x := mul_self_pos.mpr hxne
  linarith

/-! ## Claim C8 -/

/-- Claim C8: `cosine_similarity a a = 1` for every vector `a` with a
nonzero entry; the result is `0` whenever either magnitude is zero (the
guarded branch, so no NaN is produced); otherwise it is exactly
`dot(a,b) / (‖a‖ * ‖b‖)`. -/
theorem C8_cosine_similarity (a b : List ℝ) :
    ((∃ x ∈ a, x ≠ 0) → cosine_similarity a a = 1) ∧
    (vec_magnitude a = 0 ∨ vec_magnitude b = 0 → cosine_similarity a b = 0) ∧
    (vec_magnitude a ≠ 0 → vec_magnitude b ≠ 0 →
      cosine_similarity a b = vec_dot a b / (vec_magnitude a * vec_magnitude b)) := by
  refine ⟨?_, ?_, ?_⟩
  · intro h
    have hsum : 0 < (a.map (fun x => x * x)).sum := sum_sq_pos_of_ne_zero a h
    have hmag : vec_magnitude a ≠ 0 := by
      unfold vec_magnitude
      exact ne_of_gt (Real.sqrt_pos.mpr hsum)
    unfold cosine_similarity
    rw [if_neg (by push_neg; exact ⟨hmag, hmag⟩)]
    have hdot : vec_dot a a = (a.map (fun x => x * x)).sum := by
      unfold vec_dot
      rw [zip_self_map, List.map_map]
      rfl
    have hmm : vec_magnitude a * vec_magnitude a = (a.map (fun x => x * x)).sum := by
      unfold vec_magnitude
      exact Real.mul_self_sqrt (sum_sq_nonneg a)
    rw [hdot, hmm]
    exact div_self (ne_of_gt hsum)
  · intro h
    unfold cosine_similarity
    rw [if_pos h]
  · intro h1 h2
    unfold cosine_similarity
    rw [if_neg (by push_neg; exact ⟨h1, h2⟩)]

/-- Witness for C8: the one-entry vector `[1]` is nonzero and has cosine
self-similarity 1. -/
theorem C8_witness :
    (∃ x ∈ ([1] : List ℝ), x ≠ 0) ∧ cosine_similarity [1] [1] = 1 :=
  ⟨⟨1, by simp, one_ne_zero⟩,
   (C8_cosine_similarity [1] [1]).1 ⟨1, by simp, one_ne_zero⟩⟩

/-! ## IP clustering (`ip_clustering.py`)

Activity-log rows are modelled by their hashed network identifier and
user id; the pairwise `count_interactions` store query is modelled as a
function argument `interact`. -/

/-- An activity-log row (`moderation_log` row with `action =
ACTIVITY_LOG`). -/
structure ActivityLog where
  ipHash : ℕ
  userId : ℕ
deriving DecidableEq

/-- A detected cluster (dataclass `IPCluster`). -/
structure IPCluster where
  shared_ip : String
  shared_ip_hash : ℕ
  users : List ℕ
  interaction_count : ℕ
  confidence : ℚ
deriving DecidableEq

/-- Sock-puppet report (dataclass `ClusteringReport`). -/
structure ClusteringReport where
  is_suspicious : Bool
  clusters : List IPCluster
  risk_score : ℚ
  recommendation : String
deriving DecidableEq

/-- The distinct users seen on one hashed identifier
(`ip_to_users[ip_hash]`). -/
def users_of_ip (logs : List ActivityLog) (ip : ℕ) : List ℕ :=
  ((logs.filter (fun l => l.ipHash = ip)).map ActivityLog.userId).dedup

/-- The double loop `for i ... for j in range(i+1, ...)` summing
`count_interactions` over unordered user pairs of a cluster. -/
def pair_interactions (interact : ℕ → ℕ → ℕ) : List ℕ → ℕ
  | [] => 0
  | u :: rest => (rest.map (interact u)).sum + pair_interactions interact rest

/-- The cluster record built for one shared identifier: redacted raw ip,
pairwise interaction count, and `confidence = min(1, (|users|-1)*0.2 +
interactions*0.1)`. -/
def make_cluster (interact : ℕ → ℕ → ℕ) (logs : List ActivityLog) (ip : ℕ) : IPCluster :=
  { shared_ip := "[REDACTED]"
    shared_ip_hash := ip
    users := users_of_ip logs ip
    interaction_count := pair_interactions interact (users_of_ip logs ip)
    confidence := min 1 ((((users_of_ip logs ip).length : ℚ) - 1) * (2/10) +
      ((pair_interactions interact (users_of_ip logs ip)) : ℚ) * (1/10)) }

/-- `detect_ip_clusters` (with a subject filter, as `analyze_sock_puppets`
calls it): clusters of at least 2 users containing the subject, sorted
by confidence descending. -/
def detect_ip_clusters (logs : List ActivityLog) (interact : ℕ → ℕ → ℕ)
    (user_id : ℕ) : List IPCluster :=
  (((logs.map ActivityLog.ipHash).dedup.filter
      (fun ip => 2 ≤ (users_of_ip logs ip).length ∧ user_id ∈ users_of_ip logs ip)).map
    (make_cluster interact logs)).insertionSort (fun c d => d.confidence ≤ c.confidence)

/-- The per-cluster risk term of `analyze_sock_puppets`:
`((|users|-1)*0.15 + (0.4 if interactions ≥ 5 else 0)) * confidence`. -/
def cluster_risk_contribution (c : IPCluster) : ℚ :=
  (((c.users.length : ℚ) - 1) * (15/100) +
    (if 5 ≤ c.interaction_count then (4:ℚ)/10 else 0)) * c.confidence

/-- `analyze_sock_puppets`. -/
def analyze_sock_puppets (logs : List ActivityLog) (interact : ℕ → ℕ → ℕ)
    (user_id : ℕ) : ClusteringReport :=
  let clusters := detect_ip_clusters logs interact user_id
  let risk_score := min 1 ((clusters.map cluster_risk_contribution).sum)
  { is_suspicious := !clusters.isEmpty && decide ((3:ℚ)/10 ≤ risk_score)
    clusters := clusters
    risk_score := risk_score
    recommendation :=
      if 7/10 ≤ risk_score then "INVESTIGATE"
      else if 4/10 ≤ risk_score then "WARN"
      else "ALLOW" }

/-! ## Claim C6 -/

/-- Claim C6: every reported cluster's confidence is
`min(1, (|users|-1)*0.2 + interactions*0.1)`; the risk score is the
confidence-weighted per-cluster risk sum capped at 1; and a shared
identifier carrying exactly 5 users including the subject with at least
6 pairwise interactions forces risk ≥ 0.7 and INVESTIGATE. -/
theorem C6_sock_puppet_scoring (logs : List ActivityLog) (interact : ℕ → ℕ → ℕ)
    (user_id : ℕ) :
    (∀ c ∈ (analyze_sock_puppets logs interact user_id).clusters,
      c.confidence =
        min 1 (((c.users.length : ℚ) - 1) * (2/10) + (c.interaction_count : ℚ) * (1/10))) ∧
    ((analyze_sock_puppets logs interact user_id).risk_score =
      min 1 (((analyze_sock_puppets logs interact user_id).clusters.map
        cluster_risk_contribution).sum)) ∧
    ((∃ ip, user_id ∈ users_of_ip logs ip ∧ (users_of_ip logs ip).length = 5 ∧
        6 ≤ pair_interactions interact (users_of_ip logs ip)) →
      7/10 ≤ (analyze_sock_puppets logs interact user_id).risk_score ∧
      (analyze_sock_puppets logs interact user_id).recommendation = "INVESTIGATE") := by
  refine ⟨?_, rfl, ?_⟩
  · intro c hc
    simp only [analyze_sock_puppets] at hc
    unfold detect_ip_clusters at hc
    rw [List.mem_insertionSort] at hc
    obtain ⟨ip, _, rfl⟩ := List.mem_map.mp hc
    rfl
  · rintro ⟨ip, hmem5, hlen5, hint6⟩
    have hic : 5 ≤ pair_interactions interact (users_of_ip logs ip) :=
      le_trans (by norm_num) hint6
    have h6 : (6:ℚ) ≤ ((pair_interactions interact (users_of_ip logs ip)) : ℚ) := by
      exact_mod_cast hint6
    -- the shared identifier appears in the log list
    have hipin : ip ∈ (logs.map ActivityLog.ipHash).dedup := by
      rw [List.mem_dedup]
      have := hmem5
      unfold users_of_ip at this
      rw [List.mem_dedup, List.mem_map] at this
      obtain ⟨l, hl, _⟩ := this
      have hlmem := (List.mem_filter.mp hl).1
      have hlip : l.ipHash = ip := by
        have h2 := (List.mem_filter.mp hl).2
        simpa using h2
      exact List.mem_map.mpr ⟨l, hlmem, hlip⟩
    have hfil : ip ∈ (logs.map ActivityLog.ipHash).dedup.filter
        (fun ip' => 2 ≤ (users_of_ip logs ip').length ∧ user_id ∈ users_of_ip logs ip') := by
      rw [List.mem_filter]
      refine ⟨hipin, ?_⟩
      rw [decide_eq_true_eq]
      exact ⟨by rw [hlen5]; norm_num, hmem5⟩
    have hcmem : make_cluster interact logs ip ∈ detect_ip_clusters logs interact user_id := by
      unfold detect_ip_clusters
      rw [List.mem_insertionSort]
      exact List.mem_map_of_mem _ hfil
    -- this cluster's confidence saturates at 1
    have hconf : (make_cluster interact logs ip).confidence = 1 := by
      simp only [make_cluster, hlen5]
      rw [min_eq_left (by push_cast; linarith)]
    -- and its weighted risk term is exactly 1
    have hcontrib : cluster_risk_contribution (make_cluster interact logs ip) = 1 := by
      simp only [cluster_risk_contribution, make_cluster, hlen5, if_pos hic]
      rw [min_eq_left (by push_cast; linarith)]
      push_cast
      norm_num
    -- all risk terms are nonnegative
    have hpos : ∀ c ∈ detect_ip_clusters logs interact user_id,
        0 ≤ cluster_risk_contribution c := by
      intro c hc
      unfold detect_ip_clusters at hc
      rw [List.mem_insertionSort] at hc
      obtain ⟨ip', hip', rfl⟩ := List.mem_map.mp hc
      have hcond := (List.mem_filter.mp hip').2
      rw [decide_eq_true_eq] at hcond
      have h2 : (2:ℚ) ≤ ((users_of_ip logs ip').length : ℚ) := by exact_mod_cast hcond.1
      have hicnn : (0:ℚ) ≤ ((pair_interactions interact (users_of_ip logs ip')) : ℚ) := by
        positivity
      simp only [cluster_risk_contribution, make_cluster]
      apply mul_nonneg
      · have hif : (0:ℚ) ≤
            (if 5 ≤ pair_interactions interact (users_of_ip logs ip') then (4:ℚ)/10 else 0) := by
          split_ifs <;> norm_num
        nlinarith
      · exact le_min (by norm_num) (by nlinarith)
    have hsum : 1 ≤ ((detect_ip_clusters logs interact user_id).map
        cluster_risk_contribution).sum := by
      have hmm : cluster_risk_contribution (make_cluster interact logs ip) ∈
          (detect_ip_clusters logs interact user_id).map cluster_risk_contribution :=
        List.mem_map_of_mem _ hcmem
      have hle := List.single_le_sum (l := (detect_ip_clusters logs interact user_id).map
        cluster_risk_contribution) ?_ _ hmm
      · rw [hcontrib] at hle
        exact hle
      · intro x hx
        obtain ⟨c, hc, rfl⟩ := List.mem_map.mp hx
        exact hpos c hc
    have hrisk : (analyze_sock_puppets logs interact user_id).risk_score = 1 := by
      simp only [analyze_sock_puppets]
      exact min_eq_left hsum
    constructor
    · rw [hrisk]; norm_num
    · simp only [analyze_sock_puppets]
      rw [min_eq_left hsum]
      norm_num

/-- Witness data for C6: five users sharing the hashed identifier 9. -/
def sock_logs : List ActivityLog :=
  [{ ipHash := 9, userId := 1 }, { ipHash := 9, userId := 2 }, { ipHash := 9, userId := 3 },
   { ipHash := 9, userId := 4 }, { ipHash := 9, userId := 5 }]

/-- Witness data for C6: users 1 and 2 exchanged 6 interactions. -/
def sock_interact (a b : ℕ) : ℕ := if a = 1 ∧ b = 2 then 6 else 0

/-- Witness for C6: the 5-user cluster on identifier 9 with 6 pairwise
interactions drives the risk to 1 and the recommendation to
INVESTIGATE. -/
theorem C6_witness :
    (1 ∈ users_of_ip sock_logs 9 ∧ (users_of_ip sock_logs 9).length = 5 ∧
      6 ≤ pair_interactions sock_interact (users_of_ip sock_logs 9)) ∧
    7/10 ≤ (analyze_sock_puppets sock_logs sock_interact 1).risk_score ∧
    (analyze_sock_puppets sock_logs sock_interact 1).recommendation = "INVESTIGATE" := by
  have h : 1 ∈ users_of_ip sock_logs 9 ∧ (users_of_ip sock_logs 9).length = 5 ∧
      6 ≤ pair_interactions sock_interact (users_of_ip sock_logs 9) :=
    ⟨by decide, by decide, by decide⟩
  exact ⟨h, (C6_sock_puppet_scoring sock_logs sock_interact 1).2.2 ⟨9, h⟩⟩

/-! ## Abuse flag recording (C7) -/

/-- The record appended by the flag functions (the structured `details`
evidence is omitted; severity and auto-moderation are what C7 is
about). -/
structure AbuseFlagRecord where
  user_id : ℕ
  flag_type : String
  severity : String
  auto_moderated : Bool
deriving DecidableEq

/-- `flag_vote_manipulation`: HIGH / MEDIUM / LOW by risk band,
auto-moderated exactly on recommendation INVESTIGATE. -/
def flag_vote_manipulation (user_id : ℕ) (report : VoteAnalysisReport) : AbuseFlagRecord :=
  { user_id := user_id
    flag_type := "VOTE_MANIPULATION"
    severity :=
      if 7/10 ≤ report.risk_score then "HIGH"
      else if 4/10 ≤ report.risk_score then "MEDIUM"
      else "LOW"
    auto_moderated := report.recommendation == "INVESTIGATE" }

/-- `flag_sock_puppets`: CRITICAL / HIGH / MEDIUM by risk band,
auto-moderated exactly on recommendation INVESTIGATE. -/
def flag_sock_puppets (user_id : ℕ) (report : ClusteringReport) : AbuseFlagRecord :=
  { user_id := user_id
    flag_type := "SOCK_PUPPET"
    severity :=
      if 7/10 ≤ report.risk_score then "CRITICAL"
      else if 4/10 ≤ report.risk_score then "HIGH"
      else "MEDIUM"
    auto_moderated := report.recommendation == "INVESTIGATE" }

/-- `flag_duplicate_content`: HIGH on BLOCK else MEDIUM, auto-moderated
exactly on recommendation BLOCK. -/
def flag_duplicate_content (user_id : ℕ) (report : SimilarityReport) : AbuseFlagRecord :=
  { user_id := user_id
    flag_type := "DUPLICATE_CONTENT"
    severity := if report.recommendation == "BLOCK" then "HIGH" else "MEDIUM"
    auto_moderated := report.recommendation == "BLOCK" }

/-! ## Claim C7 -/

/-- Counterexample data for C7: three users sharing identifier 9. -/
def warn_logs : List ActivityLog :=
  [{ ipHash := 9, userId := 1 }, { ipHash := 9, userId := 2 }, { ipHash := 9, userId := 3 }]

/-- Counterexample data for C7: users 1 and 2 exchanged 5 interactions. -/
def warn_interact (a b : ℕ) : ℕ := if a = 1 ∧ b = 2 then 5 else 0

/-- Claim C7 (counterexample): a reachable sock-puppet report in the
WARN band (risk 0.63) is flagged with severity HIGH by
`flag_sock_puppets`, not MEDIUM as the claim requires of every
flag-recording function. -/
theorem C7_counterexample :
    (analyze_sock_puppets warn_logs warn_interact 1).risk_score = 63/100 ∧
    (analyze_sock_puppets warn_logs warn_interact 1).recommendation = "WARN" ∧
    (flag_sock_puppets 1 (analyze_sock_puppets warn_logs warn_interact 1)).severity = "HIGH" ∧
    "HIGH" ≠ "MEDIUM" := by
  have h1 : (List.map ActivityLog.ipHash warn_logs).dedup = [9] := by decide
  have h2 : users_of_ip warn_logs 9 = [1, 2, 3] := by decide
  have h3 : pair_interactions warn_interact [1, 2, 3] = 5 := by decide
  refine ⟨?_, ?_, ?_, by decide⟩ <;>
    norm_num [analyze_sock_puppets, detect_ip_clusters, h1, h2, h3, make_cluster,
      cluster_risk_contribution, flag_sock_puppets, List.insertionSort, List.orderedInsert,
      min_def]

/-- Claim C7 (amended): `flag_vote_manipulation` maps risk ≥ 0.7 to
HIGH, risk ≥ 0.4 to MEDIUM and lower risk to LOW; `flag_sock_puppets`
maps the same bands to CRITICAL / HIGH / MEDIUM (never LOW);
`flag_duplicate_content` maps recommendation BLOCK to HIGH and
everything else (WARN or ALLOW) to MEDIUM (never LOW).  Each function
sets `autoModerated` exactly on its top recommendation
(INVESTIGATE / INVESTIGATE / BLOCK), which for reports whose
recommendation agrees with the analyzers' risk bands coincides with the
most severe band (HIGH resp. CRITICAL). -/
theorem C7_amended_flag_severity (user_id : ℕ) (rv : VoteAnalysisReport)
    (rs : ClusteringReport) (rd : SimilarityReport) :
    ((flag_vote_manipulation user_id rv).severity =
      (if 7/10 ≤ rv.risk_score then "HIGH"
       else if 4/10 ≤ rv.risk_score then "MEDIUM" else "LOW")) ∧
    ((flag_vote_manipulation user_id rv).auto_moderated = true ↔
      rv.recommendation = "INVESTIGATE") ∧
    ((flag_sock_puppets user_id rs).severity =
      (if 7/10 ≤ rs.risk_score then "CRITICAL"
       else if 4/10 ≤ rs.risk_score then "HIGH" else "MEDIUM")) ∧
    ((flag_sock_puppets user_id rs).auto_moderated = true ↔
      rs.recommendation = "INVESTIGATE") ∧
    ((flag_duplicate_content user_id rd).severity =
      (if rd.recommendation = "BLOCK" then "HIGH" else "MEDIUM")) ∧
    ((flag_duplicate_content user_id rd).auto_moderated = true ↔
      rd.recommendation = "BLOCK") ∧
    (rv.recommendation =
        (if 7/10 ≤ rv.risk_score then "INVESTIGATE"
         else if 4/10 ≤ rv.risk_score then "WARN" else "ALLOW") →
      ((flag_vote_manipulation user_id rv).auto_moderated = true ↔
        (flag_vote_manipulation user_id rv).severity = "HIGH")) ∧
    (rs.recommendation =
        (if 7/10 ≤ rs.risk_score then "INVESTIGATE"
         else if 4/10 ≤ rs.risk_score then "WARN" else "ALLOW") →
      ((flag_sock_puppets user_id rs).auto_moderated = true ↔
        (flag_sock_puppets user_id rs).severity = "CRITICAL")) := by
  refine ⟨rfl, ?_, rfl, ?_, ?_, ?_, ?_, ?_⟩
  · simp [flag_vote_manipulation]
  · simp [flag_sock_puppets]
  · simp only [flag_duplicate_content]
    split_ifs with h1 h2 h3
    · rfl
    · exact absurd (beq_iff_eq.mp h1) h2
    · exact absurd (beq_iff_eq.mpr h3) h1
    · rfl
  · simp [flag_duplicate_content]
  · intro h
    simp only [flag_vote_manipulation, beq_iff_eq, h]
    split_ifs <;> simp
  · intro h
    simp only [flag_sock_puppets, beq_iff_eq, h]
    split_ifs <;> simp

/-- Witness report for C7 (vote analysis, top band). -/
def vote_report_w : VoteAnalysisReport :=
  { is_suspicious := true, patterns := [], risk_score := 1, recommendation := "INVESTIGATE" }

/-- Witness report for C7 (sock puppets, top band). -/
def sock_report_w : ClusteringReport :=
  { is_suspicious := true, clusters := [], risk_score := 1, recommendation := "INVESTIGATE" }

/-- Witness report for C7 (duplicate content). -/
def dup_report_w : SimilarityReport :=
  { is_duplicate := true, confidence := 1, matches_list := [], recommendation := "BLOCK" }

/-- Witness for C7: on band-consistent top-band reports, auto-moderation
coincides with the most severe label. -/
theorem C7_witness :
    (vote_report_w.recommendation =
      (if 7/10 ≤ vote_report_w.risk_score then "INVESTIGATE"
       else if 4/10 ≤ vote_report_w.risk_score then "WARN" else "ALLOW")) ∧
    (sock_report_w.recommendation =
      (if 7/10 ≤ sock_report_w.risk_score then "INVESTIGATE"
       else if 4/10 ≤ sock_report_w.risk_score then "WARN" else "ALLOW")) ∧
    ((flag_vote_manipulation 1 vote_report_w).auto_moderated = true ↔
      (flag_vote_manipulation 1 vote_report_w).severity = "HIGH") ∧
    ((flag_sock_puppets 1 sock_report_w).auto_moderated = true ↔
      (flag_sock_puppets 1 sock_report_w).severity = "CRITICAL") := by
  have h1 : vote_report_w.recommendation =
      (if 7/10 ≤ vote_report_w.risk_score then "INVESTIGATE"
       else if 4/10 ≤ vote_report_w.risk_score then "WARN" else "ALLOW") := by
    norm_num [vote_report_w]
  have h2 : sock_report_w.recommendation =
      (if 7/10 ≤ sock_report_w.risk_score then "INVESTIGATE"
       else if 4/10 ≤ sock_report_w.risk_score then "WARN" else "ALLOW") := by
    norm_num [sock_report_w]
  exact ⟨h1, h2,
    (C7_amended_flag_severity 1 vote_report_w sock_report_w dup_report_w).2.2.2.2.2.2.1 h1,
    (C7_amended_flag_severity 1 vote_report_w sock_report_w dup_report_w).2.2.2.2.2.2.2 h2⟩
